import Mathlib

/-!
Verification of the quote-ledger and upsell-trigger logic of
`src/frontend/app.js` (tradievoice1), via a shallow embedding.

Currency amounts are embedded as exact rationals (ℚ).  The JS source keeps
each line item's amount in a field named `total` (`item.total`), and the
running total is the getter `state.quoteTotal`, which reduces over
`quoteItems` with `(sum, item) => sum + item.total` starting from 0.

DOM state relevant to the claims is modelled explicitly: the `active` CSS
class of the upsell-notification element (a boolean), the status text, the
pulse-button colour, and the export-button text/disabled pair.  The one-shot
upsell log emission (`console.log("Upsell Trigger Activated: ...")`) is
modelled as a boolean "fired" output of `checkUpsellTrigger`.
-/

namespace TradieVoice

/-- A quote line item as the code uses it: `item.description` and
`item.total` (the amount). -/
structure LineItem where
  description : String
  total : ℚ
deriving Repr, DecidableEq

/-- The persisted business profile (`state.userProfile`). -/
structure Profile where
  business_name : String
  abn : String
  gst_registered : Bool
  logo_base64 : String
deriving Repr, DecidableEq

/-- Default profile, as initialised in the `state` literal. -/
def Profile.init : Profile :=
  { business_name := "", abn := "", gst_registered := false, logo_base64 := "" }

/-- The ambient `state` object of `app.js` (`quoteTotal` is a getter, hence
not a field here: it is the derived function `quoteTotal` below). -/
structure AppState where
  mode : String
  quoteItems : List LineItem
  isRecording : Bool
  userProfile : Profile
deriving Repr, DecidableEq

/-- Initial state: `mode: 'command'`, empty items, not recording, empty
profile defaults. -/
def AppState.init : AppState :=
  { mode := "command", quoteItems := [], isRecording := false,
    userProfile := Profile.init }

/-- The getter `state.quoteTotal`:
`this.quoteItems.reduce((sum, item) => sum + item.total, 0)`. -/
def quoteTotal (s : AppState) : ℚ :=
  s.quoteItems.foldl (fun sum item => sum + item.total) 0

/-- `checkUpsellTrigger` acts on the DOM class list of the upsell
notification.  Input: the current total and whether the element currently
has class `active`.  Output: `(active after, whether the console.log side
effect fired)`.  The log fires only when the total exceeds 10000 and the
class was absent. -/
def checkUpsellTrigger (total : ℚ) (active : Bool) : Bool × Bool :=
  if total > 10000 then
    if !active then (true, true) else (active, false)
  else
    (false, false)

/-- `addQuoteItem(item)`: pushes the item onto `state.quoteItems`, then
`updateUI()` runs `checkUpsellTrigger` on the new total.  Returns the new
app state, the new `active` class state, and whether the upsell log fired. -/
def addQuoteItem (item : LineItem) (s : AppState) (active : Bool) :
    AppState × Bool × Bool :=
  let s' := { s with quoteItems := s.quoteItems ++ [item] }
  let r := checkUpsellTrigger (quoteTotal s') active
  (s', r.1, r.2)

/-- Display state touched by the mode-toggle change handler: the status
label text and the pulse button's background colour. -/
structure ToggleDom where
  statusText : String
  pulseBtnColor : String
deriving Repr, DecidableEq

/-- The `toggleSwitch` `change` handler: sets `state.mode` from the checkbox
(`checked ? 'walkthrough' : 'command'`), rewrites the status text, and sets
the pulse button colour (`--secondary-color` in walkthrough,
`--primary-color` otherwise). -/
def toggleSwitchChange (checked : Bool) (s : AppState) (dom : ToggleDom) :
    AppState × ToggleDom :=
  let s' := { s with mode := if checked then "walkthrough" else "command" }
  let dom' :=
    { statusText :=
        if s'.mode = "command" then "Ready (Command)" else "Ready (Walkthrough)",
      pulseBtnColor :=
        if s'.mode = "walkthrough" then "var(--secondary-color)"
        else "var(--primary-color)" }
  (s', dom')

/-- The parsed JSON body of a `/api/transcribe` response; `items` is
optional because the handler guards with `data.items && ...`. -/
structure TranscribeData where
  items : Option (List LineItem)
deriving Repr, DecidableEq

/-- Outcome of a `fetch` call as the handlers observe it: the promise
rejects (network/transport error), or a response arrives carrying `ok`
and, when parsed, a body. -/
inductive FetchOutcome (α : Type) where
  | thrown
  | response (ok : Bool) (body : α)
deriving Repr, DecidableEq

/-- `sendAudioToBackend`: on a rejected fetch or a non-`ok` response the
`catch` branch runs and no item is added; on success with a non-empty
`data.items`, each item is passed to `addQuoteItem` in order.  Returns the
new app state and `active` class state (the transient status-text changes
and the fired logs are not part of the returned ledger state). -/
def sendAudioToBackend (resp : FetchOutcome TranscribeData)
    (s : AppState) (active : Bool) : AppState × Bool :=
  match resp with
  | .thrown => (s, active)
  | .response ok body =>
      if ok then
        match body.items with
        | some l =>
            if l.length > 0 then
              l.foldl (fun acc item =>
                let r := addQuoteItem item acc.1 acc.2
                (r.1, r.2.1)) (s, active)
            else (s, active)
        | none => (s, active)
      else (s, active)

/-- The `logoInput` `change` handler: when a file is selected, the
`FileReader` result (a data URL) replaces `tempLogoBase64`; with no file,
the handler body is skipped. -/
def logoInputChange (file : Option String) (tempLogoBase64 : String) : String :=
  match file with
  | some dataUrl => dataUrl
  | none => tempLogoBase64

/-- The `profileForm` `submit` handler: builds `newProfile` from the form
fields with `logo_base64: tempLogoBase64 || state.userProfile.logo_base64`
(the JS `||` takes the stored logo when `tempLogoBase64` is the empty
string), POSTs it, and only on `response.ok` assigns
`state.userProfile = newProfile`; a thrown fetch or a non-`ok` response
leaves the state untouched. -/
def profileFormSubmit (businessName abn : String) (gstRegistered : Bool)
    (tempLogoBase64 : String) (resp : FetchOutcome Unit) (s : AppState) :
    AppState :=
  let newProfile : Profile :=
    { business_name := businessName
      abn := abn
      gst_registered := gstRegistered
      logo_base64 :=
        if tempLogoBase64 = "" then s.userProfile.logo_base64
        else tempLogoBase64 }
  match resp with
  | .thrown => s
  | .response ok _ => if ok then { s with userProfile := newProfile } else s

/-- The export button's text and disabled flag. -/
structure ExportBtn where
  textContent : String
  disabled : Bool
deriving Repr, DecidableEq

/-- The `quote_data` object of the invoice request payload, field for
field as the handler builds it. -/
structure InvoiceQuoteData where
  customer_name : String
  items : List LineItem
  total_amount : ℚ
  notes : String
  upsell_opportunity : Bool
deriving Repr, DecidableEq

/-- The `exportBtn` `click` handler.  With an empty `quoteItems` it alerts
("Add some items first!") and returns before touching the button or the
network.  Otherwise it builds the invoice payload from the current ledger
and sends it; whatever the response, the `finally` block restores the
button.  Returns `(app state, button state, request sent (if any),
whether the empty-ledger alert fired)`. -/
def exportBtnClick (resp : FetchOutcome Unit) (s : AppState)
    (btn : ExportBtn) : AppState × ExportBtn × Option InvoiceQuoteData × Bool :=
  if s.quoteItems.length = 0 then
    (s, btn, none, true)
  else
    let payload : InvoiceQuoteData :=
      { customer_name := "Valued Customer"
        items := s.quoteItems
        total_amount := quoteTotal s
        notes := "Generated via TradieVoice Pro"
        upsell_opportunity := false }
    match resp with
    | _ => (s, { textContent := "📄 Export PDF", disabled := false },
            some payload, false)

/-- Modelled from the spec: `src/frontend/app.js` defines no `reset()`
("not exposed to the user in the current flow"); per the spec it clears
`items` to empty and changes nothing else. -/
def reset (s : AppState) : AppState := { s with quoteItems := [] }

/-! ## Helper lemmas -/

theorem foldl_add_total (l : List LineItem) (a : ℚ) :
    l.foldl (fun sum item => sum + item.total) a
      = a + (l.map (fun i => i.total)).sum := by
  induction l generalizing a with
  | nil => simp
  | cons x xs ih => simp [List.foldl_cons, ih, add_assoc]

theorem quoteTotal_append (s : AppState) (item : LineItem) :
    quoteTotal { s with quoteItems := s.quoteItems ++ [item] }
      = quoteTotal s + item.total := by
  simp [quoteTotal, foldl_add_total]

/-! ## Claim theorems -/

/-- C1: the total is derived, never stored: `state.quoteTotal` is a getter
that always equals the sum of the amounts (`item.total`) of the items
currently in `quoteItems`, and `addQuoteItem` changes the total by exactly
the added item's amount, independent of the rest of the state (mode,
recording flag, profile, notification class). -/
theorem quoteTotal_derived_not_stored (s : AppState) (item : LineItem)
    (active : Bool) :
    quoteTotal s = (s.quoteItems.map (fun i => i.total)).sum ∧
    quoteTotal (addQuoteItem item s active).1 = quoteTotal s + item.total := by
  constructor
  · simpa using foldl_add_total s.quoteItems 0
  · simpa [addQuoteItem] using quoteTotal_append s item

/-- C2: after `checkUpsellTrigger` runs, the `active` class of the upsell
notification holds iff the total is strictly greater than 10000; it is
false at exactly 10000 and at 9999.99; and `addQuoteItem` recomputes it
against the post-mutation total. -/
theorem upsellActive_iff_total_gt_10000 (t : ℚ) (active : Bool)
    (s : AppState) (item : LineItem) :
    ((checkUpsellTrigger t active).1 = true ↔ t > 10000) ∧
    (checkUpsellTrigger (10000 : ℚ) active).1 = false ∧
    (checkUpsellTrigger (9999.99 : ℚ) active).1 = false ∧
    (addQuoteItem item s active).2.1
      = (checkUpsellTrigger (quoteTotal (addQuoteItem item s active).1) active).1 := by
  refine ⟨?_, ?_, ?_, ?_⟩
  · by_cases h : t > 10000 <;> cases active <;> simp [checkUpsellTrigger, h]
  · cases active <;> simp [checkUpsellTrigger]
  · cases active <;> simp [checkUpsellTrigger] <;> norm_num
  · rfl

theorem checkUpsell_spec (t0 t1 : ℚ) (active : Bool)
    (hinv : active = true ↔ t0 > 10000) :
    ((checkUpsellTrigger t1 active).2 = true ↔ (t0 ≤ 10000 ∧ t1 > 10000)) ∧
    ((checkUpsellTrigger t1 active).1 = true ↔ t1 > 10000) := by
  cases active with
  | false =>
      simp only [Bool.false_eq_true, false_iff, not_lt] at hinv
      by_cases h1 : t1 > 10000 <;> simp [checkUpsellTrigger, h1, hinv]
  | true =>
      simp only [true_iff] at hinv
      by_cases h1 : t1 > 10000 <;>
        simp [checkUpsellTrigger, h1, hinv, not_le.mpr hinv]

/-- C3: the upsell-activated log emission (the `console.log` in
`checkUpsellTrigger`, distinct from the `active` class) fires on an add
exactly when that add crosses from a total ≤ 10000 to a total > 10000,
provided the class reflects the pre-add total (the invariant `updateUI`
re-establishes after every mutation, and which — by the second conjunct —
every add preserves); in particular it does not fire while the total is
already above. -/
theorem upsellLog_fires_iff_crossing (s : AppState) (item : LineItem)
    (active : Bool) (hinv : active = true ↔ quoteTotal s > 10000) :
    ((addQuoteItem item s active).2.2 = true ↔
      (quoteTotal s ≤ 10000 ∧ quoteTotal (addQuoteItem item s active).1 > 10000)) ∧
    ((addQuoteItem item s active).2.1 = true ↔
      quoteTotal (addQuoteItem item s active).1 > 10000) :=
  checkUpsell_spec (quoteTotal s)
    (quoteTotal { s with quoteItems := s.quoteItems ++ [item] }) active hinv

/-- C3 witness: from the state after adding a 9000.00 item (total 9000,
class inactive — no fire on the first add), adding 2000.00 crosses the
threshold, so the log fires and the class activates. -/
theorem upsellLog_fires_iff_crossing_witness :
    (((addQuoteItem ⟨"b", 2000⟩
        (addQuoteItem ⟨"a", 9000⟩ AppState.init false).1 false).2.2 = true) ↔
      (quoteTotal (addQuoteItem ⟨"a", 9000⟩ AppState.init false).1 ≤ 10000 ∧
        quoteTotal (addQuoteItem ⟨"b", 2000⟩
          (addQuoteItem ⟨"a", 9000⟩ AppState.init false).1 false).1 > 10000)) ∧
    ((addQuoteItem ⟨"b", 2000⟩
        (addQuoteItem ⟨"a", 9000⟩ AppState.init false).1 false).2.1 = true ↔
      quoteTotal (addQuoteItem ⟨"b", 2000⟩
          (addQuoteItem ⟨"a", 9000⟩ AppState.init false).1 false).1 > 10000) :=
  upsellLog_fires_iff_crossing
    (addQuoteItem ⟨"a", 9000⟩ AppState.init false).1 ⟨"b", 2000⟩ false
    (by norm_num [addQuoteItem, quoteTotal, AppState.init])

/-- C4 counterexample: `addQuoteItem` with `{description: "x", amount: -5}`
is not rejected — starting from the initial state it mutates `quoteItems`
and changes the total (to -5). -/
theorem addQuoteItem_negative_not_rejected :
    (addQuoteItem ⟨"x", -5⟩ AppState.init false).1.quoteItems
        ≠ AppState.init.quoteItems ∧
    quoteTotal (addQuoteItem ⟨"x", -5⟩ AppState.init false).1
        ≠ quoteTotal AppState.init := by
  constructor
  · simp [addQuoteItem, AppState.init]
  · norm_num [addQuoteItem, quoteTotal, AppState.init]

/-- C4 amended: `addQuoteItem` performs no validation at all — every item,
including one with a negative amount, is unconditionally appended to
`quoteItems` and changes the total by exactly its amount; nothing is
rejected and no invalid-input error is signalled. -/
theorem addQuoteItem_no_validation (s : AppState) (item : LineItem)
    (active : Bool) :
    (addQuoteItem item s active).1.quoteItems = s.quoteItems ++ [item] ∧
    quoteTotal (addQuoteItem item s active).1 = quoteTotal s + item.total := by
  exact ⟨rfl, quoteTotal_append s item⟩

/-- C6: after `reset` the items are empty, the recomputed total is 0, and
running the upsell check leaves the notification inactive and fires no
log, whatever the notification's prior class state. -/
theorem reset_clears_items_total_upsell (s : AppState) (active : Bool) :
    (reset s).quoteItems = [] ∧
    quoteTotal (reset s) = 0 ∧
    checkUpsellTrigger (quoteTotal (reset s)) active = (false, false) := by
  refine ⟨rfl, rfl, ?_⟩
  norm_num [checkUpsellTrigger, quoteTotal, reset]

/-- C7: the mode-toggle change handler sets only `state.mode` (and the
status text / button colour of the display); `quoteItems`, the derived
total, the recording flag and the profile are untouched, for either
checkbox position (walkthrough or command). -/
theorem toggleSwitchChange_frame (checked : Bool) (s : AppState)
    (dom : ToggleDom) :
    (toggleSwitchChange checked s dom).1.quoteItems = s.quoteItems ∧
    quoteTotal (toggleSwitchChange checked s dom).1 = quoteTotal s ∧
    (toggleSwitchChange checked s dom).1.isRecording = s.isRecording ∧
    (toggleSwitchChange checked s dom).1.userProfile = s.userProfile ∧
    (toggleSwitchChange checked s dom).1.mode
        = (if checked then "walkthrough" else "command") := by
  exact ⟨rfl, rfl, rfl, rfl, rfl⟩

/-- C8: a network failure leaves the last-known-good state: a thrown or
non-`ok` `/api/transcribe` fetch adds no items (the whole state and class
flag are unchanged), and a thrown or non-`ok` `/api/profile` POST leaves
`state.userProfile` (indeed the whole state) unchanged. -/
theorem network_failure_preserves_state (s : AppState) (active : Bool)
    (body : TranscribeData) (businessName abn : String)
    (gstRegistered : Bool) (tempLogoBase64 : String) :
    sendAudioToBackend .thrown s active = (s, active) ∧
    sendAudioToBackend (.response false body) s active = (s, active) ∧
    profileFormSubmit businessName abn gstRegistered tempLogoBase64 .thrown s
        = s ∧
    profileFormSubmit businessName abn gstRegistered tempLogoBase64
        (.response false ()) s = s := by
  exact ⟨rfl, by simp [sendAudioToBackend], rfl, by simp [profileFormSubmit]⟩

/-- C9: with zero items the export click alerts and returns before
touching anything — ledger state and button unchanged and no invoice
request issued; a request is built (carrying the current items and total)
exactly when at least one item exists. -/
theorem exportBtnClick_empty_aborts (resp : FetchOutcome Unit)
    (s : AppState) (btn : ExportBtn) :
    (s.quoteItems = [] →
      exportBtnClick resp s btn = (s, btn, none, true)) ∧
    ((exportBtnClick resp s btn).2.2.1.isSome ↔ s.quoteItems ≠ []) := by
  constructor
  · intro h
    simp [exportBtnClick, h]
  · cases resp <;>
      rcases hq : s.quoteItems with _ | ⟨x, xs⟩ <;>
      simp [exportBtnClick, hq]

/-- C9 witness: at the initial (empty-ledger) state the export click
returns everything unchanged with no request. -/
theorem exportBtnClick_empty_aborts_witness :
    (AppState.init.quoteItems = [] →
      exportBtnClick .thrown AppState.init ⟨"📄 Export PDF", false⟩
        = (AppState.init, ⟨"📄 Export PDF", false⟩, none, true)) ∧
    ((exportBtnClick .thrown AppState.init
        ⟨"📄 Export PDF", false⟩).2.2.1.isSome ↔
      AppState.init.quoteItems ≠ []) :=
  exportBtnClick_empty_aborts .thrown AppState.init ⟨"📄 Export PDF", false⟩

/-- C10: on a successful profile save (`response.ok`), the stored logo is
preserved exactly when no new logo was selected (`tempLogoBase64` still
empty), and a newly selected logo replaces it; moreover the logo-input
change handler only ever overwrites `tempLogoBase64` when a file is
actually present. -/
theorem profile_save_logo_preserved (businessName abn : String)
    (gstRegistered : Bool) (tempLogoBase64 : String) (s : AppState)
    (dataUrl temp : String) :
    (profileFormSubmit businessName abn gstRegistered tempLogoBase64
        (.response true ()) s).userProfile.logo_base64
      = (if tempLogoBase64 = "" then s.userProfile.logo_base64
         else tempLogoBase64) ∧
    logoInputChange (some dataUrl) temp = dataUrl ∧
    logoInputChange none temp = temp := by
  exact ⟨by simp [profileFormSubmit], rfl, rfl⟩

end TradieVoice
